import Mathlib

/-!
A shallow embedding of the particle choreography and interaction engine of the
Magic Christmas Tree repository, with theorems settling the frozen claims.

JavaScript numbers are idealised as real numbers extended with an explicit
non-finite element: a value of type JNum is either some finite real, or
none, standing for a non-finite IEEE value (NaN or an infinity).  All the
arithmetic appearing in the embedded code paths propagates non-finiteness,
exactly as IEEE arithmetic does on NaN, and division by zero produces a
non-finite value (0/0 is NaN, x/0 is an infinity).  Comparisons against a
non-finite value are false, as they are for NaN in JavaScript.

Randomness (Math.random) is modelled by an explicit stream of draws passed
to each function that consumes it.
-/

namespace MagicTree

/-- A JavaScript number: some finite real, or none for a non-finite value. -/
abbrev JNum := Option ℝ

/-- Addition; a non-finite operand makes the result non-finite. -/
def jadd : JNum → JNum → JNum
  | some a, some b => some (a + b)
  | _, _ => none

/-- Subtraction; a non-finite operand makes the result non-finite. -/
def jsub : JNum → JNum → JNum
  | some a, some b => some (a - b)
  | _, _ => none

/-- Multiplication; a non-finite operand makes the result non-finite. -/
def jmul : JNum → JNum → JNum
  | some a, some b => some (a * b)
  | _, _ => none

/-- Division; division by zero yields a non-finite value (NaN or infinity),
and a non-finite operand makes the result non-finite. -/
noncomputable def jdiv : JNum → JNum → JNum
  | some a, some b => if b = 0 then none else some (a / b)
  | _, _ => none

/-- Math.sqrt: the square root of a nonnegative finite value, non-finite
(NaN) on a negative or non-finite argument. -/
noncomputable def jsqrt : JNum → JNum
  | some a => if a < 0 then none else some (Real.sqrt a)
  | none => none

/-- The strict-less-than comparison of JavaScript: false whenever either
side is non-finite NaN (in the embedded code paths a non-finite comparand
is always NaN). -/
def jlt : JNum → JNum → Prop
  | some a, some b => a < b
  | _, _ => False

noncomputable instance (a b : JNum) : Decidable (jlt a b) :=
  match a, b with
  | some x, some y => inferInstanceAs (Decidable (x < y))
  | some _, none => inferInstanceAs (Decidable False)
  | none, some _ => inferInstanceAs (Decidable False)
  | none, none => inferInstanceAs (Decidable False)

@[simp] theorem jadd_some (a b : ℝ) : jadd (some a) (some b) = some (a + b) := rfl
@[simp] theorem jadd_none_right (a : JNum) : jadd a none = none := by cases a <;> rfl
@[simp] theorem jadd_none_left (a : JNum) : jadd none a = none := rfl
@[simp] theorem jsub_some (a b : ℝ) : jsub (some a) (some b) = some (a - b) := rfl
@[simp] theorem jmul_some (a b : ℝ) : jmul (some a) (some b) = some (a * b) := rfl
@[simp] theorem jmul_none_left (a : JNum) : jmul none a = none := rfl
@[simp] theorem jmul_none_right (a : JNum) : jmul a none = none := by cases a <;> rfl
@[simp] theorem jlt_some (a b : ℝ) : jlt (some a) (some b) = (a < b) := rfl
@[simp] theorem jlt_none_left (a : JNum) : jlt none a = False := rfl
@[simp] theorem jlt_none_right (a : JNum) : jlt a none = False := by cases a <;> rfl

theorem jdiv_some_of_ne (a b : ℝ) (h : b ≠ 0) :
    jdiv (some a) (some b) = some (a / b) := by
  simp [jdiv, h]

@[simp] theorem jdiv_zero_den (a : ℝ) : jdiv (some a) (some 0) = none := by
  simp [jdiv]

@[simp] theorem jdiv_none_left (a : JNum) : jdiv none a = none := rfl
@[simp] theorem jdiv_none_right (a : JNum) : jdiv a none = none := by cases a <;> rfl

theorem jsqrt_some_of_nonneg (a : ℝ) (h : 0 ≤ a) :
    jsqrt (some a) = some (Real.sqrt a) := by
  simp [jsqrt, not_lt.mpr h]

@[simp] theorem jsqrt_zero : jsqrt (some 0) = some 0 := by
  rw [jsqrt_some_of_nonneg 0 le_rfl, Real.sqrt_zero]

/-! ## Snow system (src/js/entities/snow.js inside spiral-ribbon.js)

A snow particle carries a position and a velocity, stored componentwise as
JavaScript numbers.  The field is a list of particles; updateSnowSystem
maps the per-particle loop body over it, threading the index into the
random stream (the respawn branch consumes four draws). -/

structure SnowP where
  px : JNum
  py : JNum
  pz : JNum
  vx : JNum
  vy : JNum
  vz : JNum

structure SnowCfg where
  snowInteractionRadius : ℝ
  snowWaveRadius : ℝ
  snowSpiralRadius : ℝ

/-- The loop body of updateSnowSystem for one particle: integrate the
position, apply the hand repulsion when the hand is detected and the
particle is within snowInteractionRadius, decay the horizontal velocity by
0.98, and respawn the particle high up when its height fell below -10.
Returns the updated particle and the next unused index of the random
stream. -/
noncomputable def snowParticleStep (handDetected : Bool) (hx hy hz : ℝ)
    (cfg : SnowCfg) (rand : ℕ → ℝ) (k : ℕ) (p : SnowP) : SnowP × ℕ :=
  let px := jadd p.px p.vx
  let py := jadd p.py p.vy
  let pz := jadd p.pz p.vz
  let hv :=
    if handDetected then
      let dx := jsub px (some hx)
      let dy := jsub py (some hy)
      let dz := jsub pz (some hz)
      let distance := jsqrt (jadd (jadd (jmul dx dx) (jmul dy dy)) (jmul dz dz))
      if jlt distance (some cfg.snowInteractionRadius) then
        let force := jdiv (jsub (some cfg.snowInteractionRadius) distance)
          (some cfg.snowInteractionRadius)
        (jadd p.vx (jmul (jmul (jdiv dx distance) force) (some 0.2)),
         jadd p.vz (jmul (jmul (jdiv dz distance) force) (some 0.2)))
      else (p.vx, p.vz)
    else (p.vx, p.vz)
  let vx := jmul hv.1 (some 0.98)
  let vz := jmul hv.2 (some 0.98)
  if jlt py (some (-10)) then
    (⟨some ((rand k - 0.5) * 100), some (rand (k + 1) * 30 + 50),
      some ((rand (k + 2) - 0.5) * 100),
      some 0, some (-(rand (k + 3) * 0.06 + 0.02)), some 0⟩, k + 4)
  else
    (⟨px, py, pz, vx, p.vy, vz⟩, k)

/-- updateSnowSystem: the per-frame loop over every snow particle. -/
noncomputable def updateSnowSystem (handDetected : Bool) (hx hy hz : ℝ)
    (cfg : SnowCfg) (rand : ℕ → ℝ) : ℕ → List SnowP → List SnowP
  | _, [] => []
  | k, p :: rest =>
    let r := snowParticleStep handDetected hx hy hz cfg rand k p
    r.1 :: updateSnowSystem handDetected hx hy hz cfg rand r.2 rest

/-- One sampled iteration of the createSnowWave loop: read the particle at
the drawn index, and if it lies within snowWaveRadius of the wave origin,
add the outward horizontal impulse of strength 0.5 and the fixed upward
boost 0.3 to its velocity.  Positions are never modified. -/
noncomputable def snowWaveApply (ox oy oz : ℝ) (cfg : SnowCfg)
    (ps : List SnowP) (idx : ℕ) : List SnowP :=
  match ps[idx]? with
  | none => ps
  | some p =>
    let dx := jsub p.px (some ox)
    let dy := jsub p.py (some oy)
    let dz := jsub p.pz (some oz)
    let distance := jsqrt (jadd (jadd (jmul dx dx) (jmul dy dy)) (jmul dz dz))
    if jlt distance (some cfg.snowWaveRadius) then
      ps.set idx { p with
        vx := jadd p.vx (jmul (jdiv dx distance) (some 0.5)),
        vy := jadd p.vy (some 0.3),
        vz := jadd p.vz (jmul (jdiv dz distance) (some 0.5)) }
    else ps

/-- Math.floor(Math.random() * snowCount): the index drawn at iteration i
of the createSnowWave loop. -/
noncomputable def waveIdx (n : ℕ) (rand : ℕ → ℝ) (i : ℕ) : ℕ := ⌊rand i * n⌋₊

/-- The list of indices drawn by the createSnowWave loop, one per
iteration, min 200 n iterations in total, drawn with replacement. -/
noncomputable def waveDrawList (n : ℕ) (rand : ℕ → ℝ) : List ℕ :=
  (List.range (min 200 n)).map (waveIdx n rand)

/-- Folding the sampled wave iterations over the particle field. -/
noncomputable def applyWaves (ox oy oz : ℝ) (cfg : SnowCfg) :
    List SnowP → List ℕ → List SnowP
  | ps, [] => ps
  | ps, j :: rest => applyWaves ox oy oz cfg (snowWaveApply ox oy oz cfg ps j) rest

/-- createSnowWave: draw min 200 snowCount random indices with replacement
and apply the wave impulse to each drawn particle within range. -/
noncomputable def createSnowWave (ox oy oz : ℝ) (cfg : SnowCfg)
    (rand : ℕ → ℝ) (ps : List SnowP) : List SnowP :=
  applyWaves ox oy oz cfg ps (waveDrawList ps.length rand)

/-- Claim C2 (refuted, code bug): the claim states that the division used
to normalize the force direction is guarded at zero distance, so no
non-finite value is ever written into a particle velocity.  The source has
no such guard: for a snow particle exactly at the hand anchor (distance 0),
updateSnowSystem computes dx/distance = 0/0 = NaN and adds it to the
horizontal velocity, and createSnowWave does the same for a particle
exactly at the wave origin.  This theorem evaluates both functions at that
failing input and shows the horizontal velocity becomes non-finite. -/
theorem c2_zero_distance_division_unguarded :
    (updateSnowSystem true 0 0 0 ⟨5, 10, 5⟩ (fun _ => 0) 0
        [⟨some 0, some 0, some 0, some 0, some 0, some 0⟩]).map SnowP.vx = [none]
    ∧ (createSnowWave 0 0 0 ⟨5, 10, 5⟩ (fun _ => 0)
        [⟨some 0, some 0, some 0, some 0, some 0, some 0⟩]).map SnowP.vx = [none] := by
  constructor
  · norm_num [updateSnowSystem, snowParticleStep, jadd, jsub, jmul, jsqrt, jlt, jdiv]
  · norm_num [createSnowWave, waveDrawList, waveIdx, applyWaves, snowWaveApply,
      jadd, jsub, jmul, jsqrt, jlt, jdiv]

/-! ## Rejection sampling (src/js/utils/geometry-helpers.js randomInSphere,
src/js/entities/ornaments.js calculateScatterPosition)

The do-while loop draws a candidate in the bounding cube from three
consecutive values of the random stream and redraws while its squared norm
exceeds radius squared.  The loop is embedded with explicit fuel; none
models a loop that has not yet accepted within the given fuel. -/

/-- One candidate of the rejection-sampling loop: each coordinate is
(draw - 0.5) * 2 * radius, using three consecutive draws. -/
def sphereCandidate (radius : ℚ) (rand : ℕ → ℚ) (k : ℕ) : ℚ × ℚ × ℚ :=
  ((rand k - 0.5) * 2 * radius,
   (rand (k + 1) - 0.5) * 2 * radius,
   (rand (k + 2) - 0.5) * 2 * radius)

/-- randomInSphere: redraw while the squared norm of the candidate exceeds
radius * radius, accept otherwise. -/
def randomInSphere (radius : ℚ) (rand : ℕ → ℚ) : ℕ → ℕ → Option (ℚ × ℚ × ℚ)
  | 0, _ => none
  | fuel + 1, k =>
    let c := sphereCandidate radius rand k
    if c.1 * c.1 + c.2.1 * c.2.1 + c.2.2 * c.2.2 > radius * radius then
      randomInSphere radius rand fuel (k + 3)
    else some c

/-- calculateScatterPosition: the same rejection-sampling loop, duplicated
in ornaments.js, applied to the scatterRadius of the configuration. -/
def calculateScatterPosition (scatterRadius : ℚ) (rand : ℕ → ℚ)
    (fuel k : ℕ) : Option (ℚ × ℚ × ℚ) :=
  randomInSphere scatterRadius rand fuel k

/-- Claim C6: every vector returned by the rejection-sampling loop lies
inside the scatter sphere, i.e. its squared norm is at most radius squared,
for every sequence of random draws, because candidates are redrawn while
their squared norm exceeds radius squared. -/
theorem scatterPosition_in_sphere (radius : ℚ) (rand : ℕ → ℚ)
    (fuel k : ℕ) (v : ℚ × ℚ × ℚ) :
    (randomInSphere radius rand fuel k = some v →
      v.1 * v.1 + v.2.1 * v.2.1 + v.2.2 * v.2.2 ≤ radius * radius)
    ∧ (calculateScatterPosition radius rand fuel k = some v →
      v.1 * v.1 + v.2.1 * v.2.1 + v.2.2 * v.2.2 ≤ radius * radius) := by
  have main : ∀ fuel k, randomInSphere radius rand fuel k = some v →
      v.1 * v.1 + v.2.1 * v.2.1 + v.2.2 * v.2.2 ≤ radius * radius := by
    intro fuel
    induction fuel with
    | zero => intro k h; simp [randomInSphere] at h
    | succ n ih =>
      intro k h
      rw [randomInSphere] at h
      split at h
      · exact ih (k + 3) h
      · rename_i hle
        rw [Option.some_inj] at h
        subst h
        exact not_lt.mp hle
  exact ⟨main fuel k, main fuel k⟩

/-- Witness for claim C6: with radius 1 and a constant stream of draws
equal to 0.5, the first candidate is the origin, it is accepted, and its
squared norm is at most 1. -/
theorem scatterPosition_in_sphere_witness :
    randomInSphere 1 (fun _ => 0.5) 1 0 = some (0, 0, 0)
    ∧ (0 : ℚ) * 0 + 0 * 0 + 0 * 0 ≤ 1 * 1 := by
  have h : randomInSphere 1 (fun _ => 0.5) 1 0 = some (0, 0, 0) := by
    rw [randomInSphere]
    norm_num [sphereCandidate]
  exact ⟨h, (scatterPosition_in_sphere 1 (fun _ => 0.5) 1 0 (0, 0, 0)).1 h⟩

/-! ## Gesture classifier (detectGesture in hand-tracking.js)

A landmark frame is a function from landmark index to a pair of normalized
image coordinates (x, y), with index 0 the wrist, 4 the thumb tip, and the
remaining finger tips at 8, 12, 16, 20 with PIP joints at 6, 10, 14, 18.
The source returns the strings fist, open and none; they are embedded as
an enumeration, with halfOpen standing for the string returned when the
extended-finger count is between 2 and 3. -/

inductive Gesture where
  | noHand
  | fist
  | openHand
  | halfOpen
deriving DecidableEq

/-- The tip and PIP landmark indices of the four non-thumb fingers, as
paired by the loop over fingerTips and fingerPIPs in the source. -/
def fingerTipPIPs : List (ℕ × ℕ) := [(8, 6), (12, 10), (16, 14), (20, 18)]

/-- The number of extended fingers: the thumb counts when the horizontal
distance of its tip from the wrist exceeds 0.1, and each other finger
counts when its tip y coordinate is below its PIP y coordinate by more
than 0.02 (lower y is higher on screen). -/
def fingersExtendedCount (lm : ℕ → ℚ × ℚ) : ℕ :=
  (if |(lm 4).1 - (lm 0).1| > 0.1 then 1 else 0)
  + (fingerTipPIPs.filter (fun p => (lm p.1).2 < (lm p.2).2 - 0.02)).length

/-- detectGesture: classify by the extended-finger count. -/
def detectGesture (lm : ℕ → ℚ × ℚ) : Gesture :=
  if fingersExtendedCount lm ≥ 4 then Gesture.openHand
  else if fingersExtendedCount lm ≤ 1 then Gesture.fist
  else Gesture.halfOpen

/-- Claim C5: the classifier returns Open exactly when the extended count
is at least 4, Fist exactly when it is at most 1, and the in-between
gesture otherwise; a frame with all four finger tips above their PIPs by
more than 0.02 and thumb offset above 0.1 yields Open, and a frame with
all fingers folded yields Fist. -/
theorem detectGesture_classification (lm : ℕ → ℚ × ℚ) :
    (detectGesture lm = Gesture.openHand ↔ 4 ≤ fingersExtendedCount lm)
    ∧ (detectGesture lm = Gesture.fist ↔ fingersExtendedCount lm ≤ 1)
    ∧ (detectGesture lm = Gesture.halfOpen ↔
        fingersExtendedCount lm = 2 ∨ fingersExtendedCount lm = 3)
    ∧ ((∀ p ∈ fingerTipPIPs, (lm p.1).2 < (lm p.2).2 - 0.02) →
        |(lm 4).1 - (lm 0).1| > 0.1 → detectGesture lm = Gesture.openHand)
    ∧ ((∀ p ∈ fingerTipPIPs, ¬ ((lm p.1).2 < (lm p.2).2 - 0.02)) →
        ¬ (|(lm 4).1 - (lm 0).1| > 0.1) → detectGesture lm = Gesture.fist) := by
  have hlen : (fingerTipPIPs.filter (fun p => (lm p.1).2 < (lm p.2).2 - 0.02)).length ≤ 4 := by
    have := List.length_filter_le (fun p => decide ((lm p.1).2 < (lm p.2).2 - 0.02)) fingerTipPIPs
    simpa [fingerTipPIPs] using this
  refine ⟨?_, ?_, ?_, ?_, ?_⟩
  · unfold detectGesture
    split
    · rename_i h; simpa using h
    · rename_i h
      constructor
      · intro hc; split at hc <;> simp_all
      · intro hc; omega
  · unfold detectGesture
    split
    · rename_i h; constructor
      · intro hc; simp_all
      · intro hc; omega
    · split
      · rename_i h hle; simpa using hle
      · rename_i h hgt
        constructor
        · intro hc; simp_all
        · intro hc; omega
  · unfold detectGesture
    split
    · rename_i h; constructor
      · intro hc; simp_all
      · intro hc; omega
    · split
      · rename_i h hle; constructor
        · intro hc; simp_all
        · intro hc; omega
      · rename_i h hgt
        simp only [true_iff]
        omega
  · intro hfingers hthumb
    have hall : fingerTipPIPs.filter (fun p => (lm p.1).2 < (lm p.2).2 - 0.02) = fingerTipPIPs := by
      apply List.filter_eq_self.mpr
      intro p hp
      simpa using hfingers p hp
    have hcount : fingersExtendedCount lm = 5 := by
      unfold fingersExtendedCount
      rw [if_pos hthumb, hall]
      simp [fingerTipPIPs]
    unfold detectGesture
    rw [if_pos (by omega)]
  · intro hfingers hthumb
    have hnone : fingerTipPIPs.filter (fun p => (lm p.1).2 < (lm p.2).2 - 0.02) = [] := by
      apply List.filter_eq_nil_iff.mpr
      intro p hp
      simpa using hfingers p hp
    have hcount : fingersExtendedCount lm = 0 := by
      unfold fingersExtendedCount
      rw [if_neg hthumb, hnone]
      simp
    unfold detectGesture
    rw [if_neg (by omega), if_pos (by omega)]

/-- Witness for claim C5: a concrete open-hand frame with thumb tip 0.5
away from the wrist horizontally and every finger tip 0.1 above its PIP is
classified as Open. -/
theorem detectGesture_classification_witness :
    detectGesture (fun n => if n = 4 then (0.5, 0.9) else
      if n = 8 ∨ n = 12 ∨ n = 16 ∨ n = 20 then (0.5, 0.3) else (0, 0.4))
      = Gesture.openHand := by
  apply (detectGesture_classification _).2.2.2.1
  · intro p hp
    fin_cases hp <;> norm_num
  · norm_num [abs_of_nonneg]

/-! ## Gesture-triggered actions and debounce (onHandResults in
hand-tracking.js)

The per-frame trigger logic of onHandResults.  The state carries the
lastGesture and lastGestureTime variables of the source, the shared
isGathered flag and the animating re-entrancy guard; lastActed is a ghost
field recording the gesture of the most recent frame that actually
triggered a discrete action (used to state the claim about acted-upon
gestures; the source itself keeps no such variable).  Times are
milliseconds, as from Date.now().  The emitted action list records the
side effects of the frame: the continuous spiral impulse fired on every
fist frame, and the discrete gather request, scatter request and wave
impulse fired inside the debounce gate. -/

structure HandState where
  lastGesture : Option Gesture
  lastGestureTime : ℤ
  isGathered : Bool
  animating : Bool
  lastActed : Option Gesture
deriving DecidableEq

inductive HandAct where
  | spiral
  | gatherReq
  | scatterReq
  | wave
deriving DecidableEq

/-- One frame of the gesture trigger logic of onHandResults: fire the
continuous spiral on every fist frame, then, when the classified gesture
differs from lastGesture and more than debounceTime has passed since
lastGestureTime, run the three action branches (fist gathers when
scattered and not animating, open scatters and waves when gathered and not
animating, open always waves) and record the gesture in lastGesture. -/
def onGestureStep (debounceTime : ℤ) (g : Gesture) (t : ℤ) (s : HandState) :
    HandState × List HandAct :=
  let spiralActs := if g = Gesture.fist then [HandAct.spiral] else []
  if some g ≠ s.lastGesture ∧ t - s.lastGestureTime > debounceTime then
    if g = Gesture.fist ∧ s.isGathered = false ∧ s.animating = false then
      ({ s with isGathered := true, animating := true,
                lastGestureTime := t, lastGesture := some g, lastActed := some g },
       spiralActs ++ [HandAct.gatherReq])
    else if g = Gesture.openHand ∧ s.isGathered = true ∧ s.animating = false then
      ({ s with isGathered := false, animating := true,
                lastGestureTime := t, lastGesture := some g, lastActed := some g },
       spiralActs ++ [HandAct.scatterReq, HandAct.wave])
    else if g = Gesture.openHand then
      ({ s with lastGestureTime := t, lastGesture := some g, lastActed := some g },
       spiralActs ++ [HandAct.wave])
    else
      ({ s with lastGesture := some g }, spiralActs)
  else (s, spiralActs)

theorem onGestureStep_of_not_pass (db : ℤ) (g : Gesture) (t : ℤ) (s : HandState)
    (h : ¬ (some g ≠ s.lastGesture ∧ t - s.lastGestureTime > db)) :
    onGestureStep db g t s = (s, if g = Gesture.fist then [HandAct.spiral] else []) := by
  unfold onGestureStep
  rw [if_neg h]

theorem onGestureStep_lastGesture_of_pass (db : ℤ) (g : Gesture) (t : ℤ) (s : HandState)
    (h : some g ≠ s.lastGesture ∧ t - s.lastGestureTime > db) :
    (onGestureStep db g t s).1.lastGesture = some g := by
  unfold onGestureStep
  rw [if_pos h]
  split_ifs <;> rfl

theorem onGestureStep_count_gather_le_one (db : ℤ) (g : Gesture) (t : ℤ) (s : HandState) :
    (onGestureStep db g t s).2.count HandAct.gatherReq ≤ 1 := by
  unfold onGestureStep
  split_ifs <;> simp [List.count_append, List.count_cons, List.count_nil]

/-- Counterexample to claim C4 as stated: the code triggers a discrete
action (a wave) on a frame whose gesture equals the gesture of the last
acted-upon (action-triggering) frame.  An open frame fires a wave at
t = 2000; a halfOpen frame at t = 3100 passes the debounce gate without
triggering any action but overwrites lastGesture; the next open frame at
t = 4200 then differs from lastGesture and fires a wave again, even though
the last acted-upon gesture is also open. -/
theorem debounce_lastActed_counterexample :
    ((onGestureStep 1000 Gesture.halfOpen 3100
        (onGestureStep 1000 Gesture.openHand 2000 ⟨none, 0, false, false, none⟩).1).1.lastActed
      = some Gesture.openHand)
    ∧ HandAct.wave ∈ (onGestureStep 1000 Gesture.openHand 4200
        (onGestureStep 1000 Gesture.halfOpen 3100
          (onGestureStep 1000 Gesture.openHand 2000 ⟨none, 0, false, false, none⟩).1).1).2 := by
  decide

/-- Claim C4, amended: a classified gesture triggers a discrete action
only if it differs from the gesture recorded by the debounce gate
(lastGesture, which is updated whenever the gate passes, even when no
action results) and more than gestureDebounceTime has elapsed since the
last triggered action; two consecutive classifications of the same gesture
trigger at most one gather request; and re-detection of the gesture
already recorded in lastGesture never triggers a discrete action. -/
theorem debounce_at_most_one_trigger (db : ℤ) (s : HandState) (g : Gesture)
    (t t₁ t₂ : ℤ) :
    (∀ a ∈ (onGestureStep db g t s).2, a ≠ HandAct.spiral →
      some g ≠ s.lastGesture ∧ t - s.lastGestureTime > db)
    ∧ ((onGestureStep db g t₁ s).2.count HandAct.gatherReq
        + ((onGestureStep db g t₂ (onGestureStep db g t₁ s).1).2.count HandAct.gatherReq) ≤ 1)
    ∧ (s.lastGesture = some g → ∀ a ∈ (onGestureStep db g t s).2, a = HandAct.spiral) := by
  refine ⟨?_, ?_, ?_⟩
  · intro a ha hns
    by_cases hpass : some g ≠ s.lastGesture ∧ t - s.lastGestureTime > db
    · exact hpass
    · rw [onGestureStep_of_not_pass db g t s hpass] at ha
      split at ha
      · simp at ha; exact absurd ha hns
      · simp at ha
  · by_cases hpass : some g ≠ s.lastGesture ∧ t₁ - s.lastGestureTime > db
    · have hlast := onGestureStep_lastGesture_of_pass db g t₁ s hpass
      have hnot : ¬ (some g ≠ (onGestureStep db g t₁ s).1.lastGesture
          ∧ t₂ - (onGestureStep db g t₁ s).1.lastGestureTime > db) := by
        rw [hlast]; simp
      rw [onGestureStep_of_not_pass db g t₂ _ hnot]
      have h1 := onGestureStep_count_gather_le_one db g t₁ s
      have h2 : (if g = Gesture.fist then [HandAct.spiral] else []).count HandAct.gatherReq = 0 := by
        split <;> simp
      simpa [h2] using h1
    · rw [onGestureStep_of_not_pass db g t₁ s hpass]
      have h2 : (if g = Gesture.fist then [HandAct.spiral] else []).count HandAct.gatherReq = 0 := by
        split <;> simp
      have h1 := onGestureStep_count_gather_le_one db g t₂ s
      simpa [h2] using h1
  · intro hsame a ha
    have hnot : ¬ (some g ≠ s.lastGesture ∧ t - s.lastGestureTime > db) := by
      rw [hsame]; simp
    rw [onGestureStep_of_not_pass db g t s hnot] at ha
    split at ha
    · simpa using ha
    · simp at ha

/-- Witness for claim C4: from the initial state, a fist frame at t = 2000
with debounce 1000 passes the gate and differs from the empty lastGesture,
and two fist frames 100 ms apart trigger at most one gather request. -/
theorem debounce_at_most_one_trigger_witness :
    (some Gesture.fist ≠ (⟨none, 0, false, false, none⟩ : HandState).lastGesture
      ∧ (2000 : ℤ) - (⟨none, 0, false, false, none⟩ : HandState).lastGestureTime > 1000)
    ∧ ((onGestureStep 1000 Gesture.fist 2000 ⟨none, 0, false, false, none⟩).2.count
          HandAct.gatherReq
        + ((onGestureStep 1000 Gesture.fist 2100
            (onGestureStep 1000 Gesture.fist 2000 ⟨none, 0, false, false, none⟩).1).2.count
          HandAct.gatherReq) ≤ 1) := by
  refine ⟨?_, ?_⟩
  · exact (debounce_at_most_one_trigger 1000 ⟨none, 0, false, false, none⟩ Gesture.fist
      2000 2000 2100).1 HandAct.gatherReq (by decide) (by decide)
  · exact (debounce_at_most_one_trigger 1000 ⟨none, 0, false, false, none⟩ Gesture.fist
      2000 2000 2100).2.1

/-! ## Transition state machine (transitionState in transitions.js,
toggleState in main.js)

The synchronous effect of a transitionState call: when the animating guard
is set the call returns at once; otherwise it sets the guard and launches
the gather or scatter tween.  The state carries the isGathered wrapper of
main.js, the animating guard, the particle positions (which the
synchronous part of the call never touches; the tweens move them over
time), and a log of the targets of the tweens launched so far, so that
claims about how many transitions are in flight can be stated. -/

structure ChoreoSys where
  isGathered : Bool
  animating : Bool
  positions : List (ℝ × ℝ × ℝ)
  startedTweens : List Bool

/-- transitionState: return immediately when a transition is in flight,
otherwise set the guard and start the tween toward the requested state. -/
def transitionState (toGathered : Bool) (s : ChoreoSys) : ChoreoSys :=
  if s.animating then s
  else { s with animating := true, startedTweens := s.startedTweens ++ [toGathered] }

/-- toggleState of main.js: flip the isGathered flag unconditionally, then
call transitionState toward the new value. -/
def toggleState (s : ChoreoSys) : ChoreoSys :=
  transitionState (! s.isGathered) { s with isGathered := ! s.isGathered }

/-- The configuration the display ends up in: the target of the most
recently started tween (the in-flight transition always runs to
completion). -/
def displayTarget (s : ChoreoSys) : Option Bool :=
  s.startedTweens.getLast?

/-- Completion of the in-flight animation: the timeout of transitionState
clears the guard; the tween has already moved the particles to the target
of the transition. -/
def finishTransition (s : ChoreoSys) : ChoreoSys :=
  { s with animating := false }

/-- Claim C1: a transitionState call made while the animating guard is set
returns immediately: it starts no second tween, modifies no particle
position and leaves the guard itself untouched (the whole state is
unchanged); and a gather request followed immediately by a scatter request
before the first completes leaves the guard true with only the single
gather tween started and the positions untouched, so at most one
transition is in flight. -/
theorem transition_reentrancy_guard (s : ChoreoSys) (g : Bool) :
    (s.animating = true → transitionState g s = s)
    ∧ (s.animating = false →
        (transitionState false (transitionState true s)).animating = true
        ∧ (transitionState false (transitionState true s)).startedTweens
            = s.startedTweens ++ [true]
        ∧ (transitionState false (transitionState true s)).positions = s.positions) := by
  constructor
  · intro h
    simp [transitionState, h]
  · intro h
    simp [transitionState, h]

/-- Witness for claim C1: with the guard set, a gather call leaves the
concrete state unchanged, and from an idle state a gather immediately
followed by a scatter leaves the guard true with one started tween. -/
theorem transition_reentrancy_guard_witness :
    (transitionState true ⟨false, true, [(1, 2, 3)], []⟩
      = (⟨false, true, [(1, 2, 3)], []⟩ : ChoreoSys))
    ∧ ((transitionState false (transitionState true ⟨false, false, [(1, 2, 3)], []⟩)).animating
        = true
      ∧ (transitionState false
          (transitionState true ⟨false, false, [(1, 2, 3)], []⟩)).startedTweens = [true]
      ∧ (transitionState false
          (transitionState true ⟨false, false, [(1, 2, 3)], []⟩)).positions = [(1, 2, 3)]) := by
  refine ⟨?_, ?_⟩
  · exact (transition_reentrancy_guard ⟨false, true, [(1, 2, 3)], []⟩ true).1 rfl
  · have h := (transition_reentrancy_guard ⟨false, false, [(1, 2, 3)], []⟩ true).2 rfl
    exact ⟨h.1, by simpa using h.2.1, h.2.2⟩

/-- Claim C9 (implicit): toggleState flips isGathered unconditionally
before the re-entrancy guard is consulted, so a toggle issued while a
transition is in flight inverts the recorded state even though
transitionState returns without animating; after the in-flight transition
completes, the logical isGathered flag and the displayed configuration
disagree.  The gesture path, by contrast, checks the animating guard
before flipping, so it leaves isGathered unchanged while animating. -/
theorem toggle_during_transition_desyncs (s : ChoreoSys) (hs : HandState)
    (db : ℤ) (g : Gesture) (t : ℤ) :
    (s.animating = true →
      (toggleState s).isGathered = ! s.isGathered
      ∧ (toggleState s).startedTweens = s.startedTweens
      ∧ (toggleState s).animating = true
      ∧ (toggleState s).positions = s.positions)
    ∧ (hs.animating = true → (onGestureStep db g t hs).1.isGathered = hs.isGathered)
    ∧ (displayTarget
          (finishTransition (toggleState (toggleState ⟨false, false, [], []⟩))) = some true
        ∧ (finishTransition (toggleState (toggleState ⟨false, false, [], []⟩))).isGathered
          = false
        ∧ (finishTransition (toggleState (toggleState ⟨false, false, [], []⟩))).animating
          = false) := by
  refine ⟨?_, ?_, ?_⟩
  · intro h
    simp [toggleState, transitionState, h]
  · intro h
    unfold onGestureStep
    split_ifs with h1 h2 h3 h4 <;> simp_all
  · refine ⟨?_, ?_, ?_⟩ <;>
      simp [toggleState, transitionState, finishTransition, displayTarget]

/-- Witness for claim C9: a toggle issued on a concrete in-flight state
flips isGathered without starting a tween, and the gesture path on a
concrete in-flight state does not flip isGathered. -/
theorem toggle_during_transition_desyncs_witness :
    ((toggleState ⟨true, true, [], [true]⟩).isGathered = false
      ∧ (toggleState ⟨true, true, [], [true]⟩).startedTweens = [true]
      ∧ (toggleState ⟨true, true, [], [true]⟩).animating = true
      ∧ (toggleState ⟨true, true, [], [true]⟩).positions = [])
    ∧ (onGestureStep 1000 Gesture.fist 2000 ⟨none, 0, false, true, none⟩).1.isGathered
        = false := by
  constructor
  · have h := (toggle_during_transition_desyncs ⟨true, true, [], [true]⟩
      ⟨none, 0, false, true, none⟩ 1000 Gesture.fist 2000).1 rfl
    exact ⟨by simpa using h.1, h.2.1, h.2.2.1, h.2.2.2⟩
  · exact (toggle_during_transition_desyncs ⟨true, true, [], [true]⟩
      ⟨none, 0, false, true, none⟩ 1000 Gesture.fist 2000).2.1 rfl

/-! ## Tree placement (calculateTreePosition in ornaments.js)

The power-curve placement on the cone: the normalized rank index/total is
raised to the power 1.7, scaled by the tree height and recentered; the
radius follows the linear cone profile with a height-dependent random
jitter band, and the azimuth is a random angle.  The two random draws only
enter the x and z coordinates. -/

structure TreeCfg where
  treeHeight : ℝ
  treeBaseRadius : ℝ

/-- calculateTreePosition: rand 0 is the azimuth draw and rand 1 the
radial jitter draw. -/
noncomputable def calculateTreePosition (index total : ℕ) (cfg : TreeCfg)
    (rand : ℕ → ℝ) : ℝ × ℝ × ℝ :=
  let H := cfg.treeHeight
  let t : ℝ := (index : ℝ) / (total : ℝ)
  let tWeighted := t ^ (1.7 : ℝ)
  let yLocal := tWeighted * H
  let y := yLocal - H / 2
  let rAtY := cfg.treeBaseRadius * (1 - yLocal / H)
  let theta := rand 0 * (2 * Real.pi)
  let rRandom :=
    if y < -5 then rAtY * (0.7 + rand 1 * 0.5)
    else if y > 5 then rAtY * (0.85 + rand 1 * 0.3)
    else rAtY * (0.8 + rand 1 * 0.4)
  (rRandom * Real.cos theta, y, rRandom * Real.sin theta)

/-- Claim C7: for a positive total and a nonnegative tree height, the y
coordinate of calculateTreePosition is non-decreasing in the normalized
rank index/total, independent of the random azimuth and jitter draws (the
two calls may even use different random streams). -/
theorem treePosition_y_monotone (i j total : ℕ) (cfg : TreeCfg)
    (rand rand' : ℕ → ℝ) (htotal : 0 < total) (hij : i ≤ j)
    (hH : 0 ≤ cfg.treeHeight) :
    (calculateTreePosition i total cfg rand).2.1
      ≤ (calculateTreePosition j total cfg rand').2.1 := by
  show ((i : ℝ) / (total : ℝ)) ^ (1.7 : ℝ) * cfg.treeHeight - cfg.treeHeight / 2
      ≤ ((j : ℝ) / (total : ℝ)) ^ (1.7 : ℝ) * cfg.treeHeight - cfg.treeHeight / 2
  have htpos : (0 : ℝ) < (total : ℝ) := by exact_mod_cast htotal
  have hdiv : (i : ℝ) / (total : ℝ) ≤ (j : ℝ) / (total : ℝ) := by
    gcongr
  have hpow : ((i : ℝ) / (total : ℝ)) ^ (1.7 : ℝ)
      ≤ ((j : ℝ) / (total : ℝ)) ^ (1.7 : ℝ) :=
    Real.rpow_le_rpow (by positivity) hdiv (by norm_num)
  have := mul_le_mul_of_nonneg_right hpow hH
  linarith

/-- Witness for claim C7: with 2 particles, tree height 20 and constant
random streams, the particle of rank 0 sits no higher than the particle of
rank 1. -/
theorem treePosition_y_monotone_witness :
    (0 : ℕ) < 2 ∧ (0 : ℕ) ≤ 1 ∧ (0 : ℝ) ≤ 20
    ∧ (calculateTreePosition 0 2 ⟨20, 8⟩ (fun _ => 0)).2.1
      ≤ (calculateTreePosition 1 2 ⟨20, 8⟩ (fun _ => 1)).2.1 := by
  refine ⟨by norm_num, by norm_num, by norm_num, ?_⟩
  exact treePosition_y_monotone 0 1 2 ⟨20, 8⟩ (fun _ => 0) (fun _ => 1)
    (by norm_num) (by norm_num) (by norm_num)

/-! ## Gather transition timeline (gatherAll in gather.js, transitionState
in transitions.js)

The staggered tween of a gather transition, expressed against the shared
clock, with the gather request at time 0.  Particle i starts after a delay
of i * 0.002 seconds and tweens for animationDuration seconds toward its
gather target along an easing curve; gsap sets the target value exactly
when the tween ends.  gatherAll resolves its promise when the spiral
ribbon reveal completes, at animationDuration * 0.5 + 0.5 seconds, and
transitionState then clears the animating guard animationDuration seconds
later. -/

/-- Linear interpolation of a point triple, p + a * (q - p) componentwise,
as gsap computes in-flight tween values from the eased progress a. -/
def lerp3 (a : ℝ) (p q : ℝ × ℝ × ℝ) : ℝ × ℝ × ℝ :=
  (p.1 + a * (q.1 - p.1), p.2.1 + a * (q.2.1 - p.2.1), p.2.2 + a * (q.2.2 - p.2.2))

/-- The stagger delay of particle i: index * 0.002 seconds. -/
def gatherDelay (i : ℕ) : ℝ := (i : ℝ) * 0.002

/-- A delayed gsap tween evaluated at time t: before the delay the value
is the start, after delay + duration it is exactly the target, and in
between it interpolates along the eased progress. -/
noncomputable def tweenPos (p₀ target : ℝ × ℝ × ℝ) (ease : ℝ → ℝ)
    (delay dur t : ℝ) : ℝ × ℝ × ℝ :=
  if t < delay then p₀
  else if t < delay + dur then lerp3 (ease ((t - delay) / dur)) p₀ target
  else target

/-- The position of ornament i during a gather started at time 0. -/
noncomputable def gatherOrnamentPos (p₀ target : ℝ × ℝ × ℝ) (ease : ℝ → ℝ)
    (dur : ℝ) (i : ℕ) (t : ℝ) : ℝ × ℝ × ℝ :=
  tweenPos p₀ target ease (gatherDelay i) dur t

/-- The time at which the gatherAll promise resolves: the spiral ribbon
reveal starts after a timeout of animationDuration * 500 ms and fades in
for 0.5 s. -/
def gatherResolveTime (dur : ℝ) : ℝ := dur * 0.5 + 0.5

/-- The time at which the animating guard clears: transitionState starts a
timeout of animationDuration * 1000 ms after the gatherAll promise
resolves. -/
def gatherClearTime (dur : ℝ) : ℝ := gatherResolveTime dur + dur

/-- The guard during a gather started at time 0: animating is set at the
request and clears at gatherClearTime. -/
def gatherAnimating (dur t : ℝ) : Prop := 0 ≤ t ∧ t < gatherClearTime dur

/-- The time at which the last ornament tween finishes: the full animation
duration including the largest stagger delay, for a population of n
particles. -/
def gatherLastFinishTime (n : ℕ) (dur : ℝ) : ℝ := gatherDelay (n - 1) + dur

/-- Counterexample to claim C3 as stated: for total = 400 at the
configured duration 1.8, the full animation duration including the largest
stagger delay is 399 * 0.002 + 1.8 = 2.598 seconds, but at 2.7 seconds,
after that full duration has elapsed, the transitioning guard is still
set: it clears only at 1.8 * 0.5 + 0.5 + 1.8 = 3.2 seconds, when the
ribbon-reveal resolve plus the transitionState timeout have both run.  So
the guard is not yet false once the full staggered duration has elapsed. -/
theorem gather_guard_outlives_full_duration :
    gatherLastFinishTime 400 1.8 ≤ 2.7 ∧ gatherAnimating 1.8 2.7 := by
  constructor
  · norm_num [gatherLastFinishTime, gatherDelay]
  · exact ⟨by norm_num, by norm_num [gatherClearTime, gatherResolveTime]⟩

/-- Claim C3, amended: for a gather request over the full particle
population, once the full animation duration including the largest
stagger delay has elapsed, every particle position equals its gather
target exactly; the guard is not cleared before that full duration has
elapsed (under the stagger bound satisfied by the shipped population
sizes); but the guard is not yet false at that point: it clears only at
animationDuration * 0.5 + 0.5 + animationDuration seconds after the
request (the gatherAll ribbon-reveal resolve plus the transitionState
timeout), remaining true until then and being false from then on. -/
theorem gather_completes_amended (n : ℕ) (dur : ℝ) (ease : ℝ → ℝ)
    (p₀ target : ℕ → ℝ × ℝ × ℝ) (t : ℝ) (hdur : 0 < dur) :
    (∀ i < n, gatherLastFinishTime n dur ≤ t →
      gatherOrnamentPos (p₀ i) (target i) ease dur i t = target i)
    ∧ (gatherDelay (n - 1) ≤ dur * 0.5 + 0.5 → 0 ≤ t →
        t < gatherLastFinishTime n dur → gatherAnimating dur t)
    ∧ (gatherClearTime dur ≤ t → ¬ gatherAnimating dur t)
    ∧ (0 ≤ t → t < gatherClearTime dur → gatherAnimating dur t) := by
  refine ⟨?_, ?_, ?_, ?_⟩
  · intro i hi ht
    have hdelay : gatherDelay i ≤ gatherDelay (n - 1) := by
      unfold gatherDelay
      have : (i : ℝ) ≤ ((n - 1 : ℕ) : ℝ) := by
        exact_mod_cast Nat.le_sub_one_of_lt hi
      nlinarith
    have hfin : gatherDelay i + dur ≤ t := by
      have : gatherLastFinishTime n dur = gatherDelay (n - 1) + dur := rfl
      nlinarith [hdelay, ht]
    unfold gatherOrnamentPos tweenPos
    rw [if_neg (by nlinarith), if_neg (by nlinarith)]
  · intro hstagger h0 hlt
    refine ⟨h0, ?_⟩
    have : gatherLastFinishTime n dur ≤ gatherClearTime dur := by
      unfold gatherLastFinishTime gatherClearTime gatherResolveTime
      nlinarith
    linarith
  · intro ht hanim
    exact absurd hanim.2 (not_lt.mpr ht)
  · intro h0 hlt
    exact ⟨h0, hlt⟩

/-- Witness for claim C3: for total = 400 at duration 1.8, at 2.7 seconds,
after the full staggered duration of 2.598 seconds, the first particle
sits exactly at its gather target while the guard is still set; at 2
seconds, before the full duration, the guard is set (the stagger bound
0.798 against 1.4 holds); and at 3.3 seconds, past the clearing time of
3.2 seconds, the guard is false. -/
theorem gather_completes_amended_witness :
    gatherOrnamentPos (0, 0, 0) (1, 2, 3) id 1.8 0 2.7 = (1, 2, 3)
    ∧ gatherAnimating 1.8 2.7
    ∧ gatherAnimating 1.8 2
    ∧ ¬ gatherAnimating 1.8 3.3 := by
  have h1 : (0 : ℝ) < 1.8 := by norm_num
  have hm27 := gather_completes_amended 400 1.8 id (fun _ => (0, 0, 0))
    (fun _ => (1, 2, 3)) 2.7 h1
  have hm2 := gather_completes_amended 400 1.8 id (fun _ => (0, 0, 0))
    (fun _ => (1, 2, 3)) 2 h1
  have hm33 := gather_completes_amended 400 1.8 id (fun _ => (0, 0, 0))
    (fun _ => (1, 2, 3)) 3.3 h1
  refine ⟨?_, ?_, ?_, ?_⟩
  · exact hm27.1 0 (by norm_num)
      (by norm_num [gatherLastFinishTime, gatherDelay])
  · exact hm27.2.2.2 (by norm_num)
      (by norm_num [gatherClearTime, gatherResolveTime])
  · exact hm2.2.1 (by norm_num [gatherDelay]) (by norm_num)
      (by norm_num [gatherLastFinishTime, gatherDelay])
  · exact hm33.2.2.1 (by norm_num [gatherClearTime, gatherResolveTime])

/-! ## Behaviour of the wave impulse on individual particles -/

theorem snowWaveApply_getElem_ne (ox oy oz : ℝ) (cfg : SnowCfg)
    (ps : List SnowP) (j idx : ℕ) (h : j ≠ idx) :
    (snowWaveApply ox oy oz cfg ps j)[idx]? = ps[idx]? := by
  unfold snowWaveApply
  cases hj : ps[j]? with
  | none => rfl
  | some p =>
    dsimp only
    split_ifs with hd
    · exact List.getElem?_set_ne h
    · rfl

theorem applyWaves_getElem_of_not_mem (ox oy oz : ℝ) (cfg : SnowCfg)
    (idx : ℕ) :
    ∀ (l : List ℕ) (ps : List SnowP), idx ∉ l →
      (applyWaves ox oy oz cfg ps l)[idx]? = ps[idx]? := by
  intro l
  induction l with
  | nil => intro ps _; rfl
  | cons j rest ih =>
    intro ps hmem
    have hj : j ≠ idx := fun he => hmem (he ▸ List.mem_cons_self j rest)
    have hrest : idx ∉ rest := fun hr => hmem (List.mem_cons_of_mem j hr)
    rw [applyWaves, ih _ hrest, snowWaveApply_getElem_ne ox oy oz cfg ps j idx hj]

/-- The effect of a full sampled wave pass on the particle at index idx,
assumed finite and at positive distance d from the origin, closer than the
wave radius: each draw of idx adds the same outward impulse, so the final
velocity adds the impulse multiplied by the number of draws of idx, and
the position never changes. -/
theorem applyWaves_getElem_at (ox oy oz : ℝ) (cfg : SnowCfg) (idx : ℕ)
    (x y z d : ℝ)
    (hd : Real.sqrt ((x - ox) * (x - ox) + (y - oy) * (y - oy) + (z - oz) * (z - oz)) = d)
    (hdpos : 0 < d) (hdlt : d < cfg.snowWaveRadius) :
    ∀ (l : List ℕ) (ps : List SnowP) (vx vy vz : ℝ),
      ps[idx]? = some ⟨some x, some y, some z, some vx, some vy, some vz⟩ →
      (applyWaves ox oy oz cfg ps l)[idx]?
        = some ⟨some x, some y, some z,
            some (vx + (l.count idx : ℝ) * ((x - ox) / d * 0.5)),
            some (vy + (l.count idx : ℝ) * 0.3),
            some (vz + (l.count idx : ℝ) * ((z - oz) / d * 0.5))⟩ := by
  intro l
  induction l with
  | nil =>
    intro ps vx vy vz hget
    rw [applyWaves, hget]
    simp
  | cons j rest ih =>
    intro ps vx vy vz hget
    rw [applyWaves]
    by_cases hj : j = idx
    · subst hj
      have hlt : j < ps.length := by
        rcases List.getElem?_eq_some.mp hget with ⟨hl, _⟩
        exact hl
      have hsum : (0 : ℝ) ≤ (x - ox) * (x - ox) + (y - oy) * (y - oy) + (z - oz) * (z - oz) := by
        nlinarith [mul_self_nonneg (x - ox), mul_self_nonneg (y - oy), mul_self_nonneg (z - oz)]
      have happly : snowWaveApply ox oy oz cfg ps j
          = ps.set j ⟨some x, some y, some z,
              some (vx + (x - ox) / d * 0.5),
              some (vy + 0.3),
              some (vz + (z - oz) / d * 0.5)⟩ := by
        unfold snowWaveApply
        rw [hget]
        simp only [jsub_some, jmul_some, jadd_some]
        rw [jsqrt_some_of_nonneg _ hsum, hd]
        rw [if_pos (by simpa using hdlt)]
        rw [jdiv_some_of_ne _ _ (ne_of_gt hdpos), jdiv_some_of_ne _ _ (ne_of_gt hdpos)]
        simp only [jmul_some, jadd_some]
      rw [happly]
      have hget' : (ps.set j ⟨some x, some y, some z,
          some (vx + (x - ox) / d * 0.5), some (vy + 0.3),
          some (vz + (z - oz) / d * 0.5)⟩)[j]?
          = some ⟨some x, some y, some z,
              some (vx + (x - ox) / d * 0.5), some (vy + 0.3),
              some (vz + (z - oz) / d * 0.5)⟩ :=
        List.getElem?_set_eq_of_lt _ (by simpa using hlt)
      rw [ih _ _ _ _ hget']
      have hc : ((j :: rest).count j : ℝ) = (rest.count j : ℝ) + 1 := by
        rw [List.count_cons_self]
        push_cast
        ring
      rw [hc]
      refine congrArg some ?_
      simp only [SnowP.mk.injEq, Option.some_inj]
      refine ⟨trivial, trivial, trivial, by ring, by ring, by ring⟩
    · have hne : j ≠ idx := hj
      have hstep := snowWaveApply_getElem_ne ox oy oz cfg ps j idx hne
      have hget' : (snowWaveApply ox oy oz cfg ps j)[idx]?
          = some ⟨some x, some y, some z, some vx, some vy, some vz⟩ := by
        rw [hstep, hget]
      rw [ih _ _ _ _ hget']
      have hc : ((j :: rest).count idx : ℝ) = (rest.count idx : ℝ) := by
        rw [List.count_cons_of_ne (Ne.symm hne)]
      rw [hc]

theorem waveDrawList_one : waveDrawList 1 (fun _ => 0) = [0] := by
  simp [waveDrawList, waveIdx, List.range_succ]

theorem waveDrawList_two : waveDrawList 2 (fun _ => 0) = [0, 0] := by
  simp [waveDrawList, waveIdx, List.range_succ]

theorem sqrt_twentyfive : Real.sqrt 25 = 5 := by
  rw [show (25 : ℝ) = 5 ^ 2 by norm_num]
  exact Real.sqrt_sq (by norm_num)

/-- Counterexample to claim C8 as stated: a snow particle at distance
waveRadius / 2 from the wave origin can come out of a createSnowWave call
completely unchanged, with no upward boost, because the random sampling
draws indices with replacement and may never draw it.  Here the field has
two particles, the constant-zero random stream draws index 0 on both
iterations, and the particle at index 1, sitting at distance 5 = 10 / 2
from the origin, keeps its zero velocity. -/
theorem wave_misses_undrawn_particle :
    Real.sqrt (((3 : ℝ) - 0) * (3 - 0) + ((0 : ℝ) - 0) * (0 - 0) + ((4 : ℝ) - 0) * (4 - 0))
      = 10 / 2
    ∧ (createSnowWave 0 0 0 ⟨5, 10, 5⟩ (fun _ => 0)
        [⟨some 100, some 0, some 0, some 0, some 0, some 0⟩,
         ⟨some 3, some 0, some 4, some 0, some 0, some 0⟩])[1]?
      = some ⟨some 3, some 0, some 4, some 0, some 0, some 0⟩ := by
  constructor
  · rw [show ((3 : ℝ) - 0) * (3 - 0) + ((0 : ℝ) - 0) * (0 - 0) + ((4 : ℝ) - 0) * (4 - 0)
        = 25 by norm_num, sqrt_twentyfive]
    norm_num
  · rw [createSnowWave, show ([⟨some 100, some 0, some 0, some 0, some 0, some 0⟩,
        ⟨some 3, some 0, some 4, some 0, some 0, some 0⟩] : List SnowP).length = 2 from rfl,
      waveDrawList_two,
      applyWaves_getElem_of_not_mem 0 0 0 ⟨5, 10, 5⟩ 1 [0, 0] _ (by decide)]
    rfl

/-- Claim C8, amended: for any snow particle at distance waveRadius / 2
from the wave origin that the random sampling draws at least once, the
createSnowWave call strictly increases its vertical velocity (by 0.3 per
draw) and adds horizontal velocity components whose signs match the
direction pointing away from the origin; the amendment restricts the claim
to particles actually drawn by the bounded random sample, since an
undrawn particle receives no impulse. -/
theorem wave_boosts_drawn_particle (cfg : SnowCfg) (ox oy oz x y z vx vy vz : ℝ)
    (ps : List SnowP) (idx : ℕ) (rand : ℕ → ℝ)
    (hget : ps[idx]? = some ⟨some x, some y, some z, some vx, some vy, some vz⟩)
    (hrad : 0 < cfg.snowWaveRadius)
    (hd : Real.sqrt ((x - ox) * (x - ox) + (y - oy) * (y - oy) + (z - oz) * (z - oz))
        = cfg.snowWaveRadius / 2)
    (hc : 1 ≤ (waveDrawList ps.length rand).count idx) :
    (createSnowWave ox oy oz cfg rand ps)[idx]?
      = some ⟨some x, some y, some z,
          some (vx + ((waveDrawList ps.length rand).count idx : ℝ)
              * ((x - ox) / (cfg.snowWaveRadius / 2) * 0.5)),
          some (vy + ((waveDrawList ps.length rand).count idx : ℝ) * 0.3),
          some (vz + ((waveDrawList ps.length rand).count idx : ℝ)
              * ((z - oz) / (cfg.snowWaveRadius / 2) * 0.5))⟩
    ∧ vy < vy + ((waveDrawList ps.length rand).count idx : ℝ) * 0.3
    ∧ (0 < x - ox → 0 < ((waveDrawList ps.length rand).count idx : ℝ)
        * ((x - ox) / (cfg.snowWaveRadius / 2) * 0.5))
    ∧ (x - ox < 0 → ((waveDrawList ps.length rand).count idx : ℝ)
        * ((x - ox) / (cfg.snowWaveRadius / 2) * 0.5) < 0)
    ∧ (0 < z - oz → 0 < ((waveDrawList ps.length rand).count idx : ℝ)
        * ((z - oz) / (cfg.snowWaveRadius / 2) * 0.5))
    ∧ (z - oz < 0 → ((waveDrawList ps.length rand).count idx : ℝ)
        * ((z - oz) / (cfg.snowWaveRadius / 2) * 0.5) < 0) := by
  have hdpos : 0 < cfg.snowWaveRadius / 2 := by linarith
  have hdlt : cfg.snowWaveRadius / 2 < cfg.snowWaveRadius := by linarith
  have hcpos : (0 : ℝ) < ((waveDrawList ps.length rand).count idx : ℝ) := by
    exact_mod_cast Nat.lt_of_lt_of_le Nat.zero_lt_one hc
  refine ⟨?_, by nlinarith, ?_, ?_, ?_, ?_⟩
  · exact applyWaves_getElem_at ox oy oz cfg idx x y z _ hd hdpos hdlt _ ps vx vy vz hget
  · intro h
    exact mul_pos hcpos (mul_pos (div_pos h hdpos) (by norm_num))
  · intro h
    have hneg : (x - ox) / (cfg.snowWaveRadius / 2) < 0 := div_neg_of_neg_of_pos h hdpos
    nlinarith
  · intro h
    exact mul_pos hcpos (mul_pos (div_pos h hdpos) (by norm_num))
  · intro h
    have hneg : (z - oz) / (cfg.snowWaveRadius / 2) < 0 := div_neg_of_neg_of_pos h hdpos
    nlinarith

/-- Witness for claim C8: a single particle at (3, 0, 4), at distance
5 = 10 / 2 from the origin, is drawn by the constant-zero random stream,
and its vertical velocity strictly increases. -/
theorem wave_boosts_drawn_particle_witness :
    (0 : ℝ) < 0 + ((waveDrawList 1 (fun _ => 0)).count 0 : ℝ) * 0.3 := by
  have h := wave_boosts_drawn_particle ⟨5, 10, 5⟩ 0 0 0 3 0 4 0 0 0
    [⟨some 3, some 0, some 4, some 0, some 0, some 0⟩] 0 (fun _ => 0)
    rfl (by norm_num)
    (by
      rw [show ((3 : ℝ) - 0) * (3 - 0) + ((0 : ℝ) - 0) * (0 - 0) + ((4 : ℝ) - 0) * (4 - 0)
          = 25 by norm_num, sqrt_twentyfive]
      norm_num)
    (by
      rw [show ([⟨some 3, some 0, some 4, some 0, some 0, some 0⟩] : List SnowP).length
          = 1 from rfl, waveDrawList_one]
      decide)
  exact h.2.1

/-- Claim C10 (implicit): createSnowWave draws its indices uniformly with
replacement, so within a single call the same particle can receive the
impulse several times, its vertical velocity increasing by a multiple of
0.3, while another particle within waveRadius of the origin receives no
impulse at all because it was never drawn.  With two particles and the
constant-zero stream, both draws hit index 0: that particle gains exactly
two impulses (vertical velocity 0.6 = 2 * 0.3), while the particle at
index 1, at distance 1 < 10 from the origin, is untouched. -/
theorem wave_sampling_with_replacement :
    (createSnowWave 0 0 0 ⟨5, 10, 5⟩ (fun _ => 0)
        [⟨some 3, some 0, some 4, some 0, some 0, some 0⟩,
         ⟨some 0.6, some 0, some 0.8, some 0, some 0, some 0⟩])[0]?
      = some ⟨some 3, some 0, some 4, some 0.6, some 0.6, some 0.8⟩
    ∧ Real.sqrt (((0.6 : ℝ) - 0) * (0.6 - 0) + ((0 : ℝ) - 0) * (0 - 0)
        + ((0.8 : ℝ) - 0) * (0.8 - 0)) = 1
    ∧ (1 : ℝ) < 10
    ∧ (createSnowWave 0 0 0 ⟨5, 10, 5⟩ (fun _ => 0)
        [⟨some 3, some 0, some 4, some 0, some 0, some 0⟩,
         ⟨some 0.6, some 0, some 0.8, some 0, some 0, some 0⟩])[1]?
      = some ⟨some 0.6, some 0, some 0.8, some 0, some 0, some 0⟩ := by
  have hps : ([⟨some 3, some 0, some 4, some 0, some 0, some 0⟩,
      ⟨some 0.6, some 0, some 0.8, some 0, some 0, some 0⟩] : List SnowP).length = 2 := rfl
  have hd5 : Real.sqrt (((3 : ℝ) - 0) * (3 - 0) + ((0 : ℝ) - 0) * (0 - 0)
      + ((4 : ℝ) - 0) * (4 - 0)) = 5 := by
    rw [show ((3 : ℝ) - 0) * (3 - 0) + ((0 : ℝ) - 0) * (0 - 0) + ((4 : ℝ) - 0) * (4 - 0)
        = 25 by norm_num, sqrt_twentyfive]
  refine ⟨?_, ?_, by norm_num, ?_⟩
  · rw [createSnowWave, hps, waveDrawList_two]
    rw [applyWaves_getElem_at 0 0 0 ⟨5, 10, 5⟩ 0 3 0 4 5 hd5 (by norm_num) (by norm_num)
      [0, 0] _ 0 0 0 rfl]
    refine congrArg some ?_
    simp only [SnowP.mk.injEq, Option.some_inj]
    refine ⟨trivial, trivial, trivial, by norm_num, by norm_num, by norm_num⟩
  · rw [show ((0.6 : ℝ) - 0) * (0.6 - 0) + ((0 : ℝ) - 0) * (0 - 0)
        + ((0.8 : ℝ) - 0) * (0.8 - 0) = 1 by norm_num, Real.sqrt_one]
  · rw [createSnowWave, hps, waveDrawList_two,
      applyWaves_getElem_of_not_mem 0 0 0 ⟨5, 10, 5⟩ 1 [0, 0] _ (by decide)]
    rfl

end MagicTree
